import Mathlib

/-!
Verification of the GitMove core (strategy/conflict analysis, sync orchestration,
recovery envelope) against its natural-language specification.

The Python source is shallowly embedded: pure string/classification logic is
translated function-by-function, and the underlying git engine (GitPython) is
modelled by an oracle environment `GitEnv` that fixes the outcome of every
primitive git command the core invokes (merge-base, diff, fetch, rev-list,
merge simulation, ...).  Exceptions are modelled by `Except`/`Option` over an
explicit exception taxonomy mirroring `gitmove/exceptions.py`.
-/

namespace GitMove

/-! ### String utilities

Executable counterparts of the Python string operations the core uses:
substring containment (`in`), non-overlapping substring counting
(`str.count`), suffix after the last occurrence of a separator
(`s.split(sep)[-1]`), basename / extension splitting (`os.path.splitext`).
-/

/-- `startsWithL s p` is true when `p` is a prefix of `s` (char lists). -/
def startsWithL : List Char → List Char → Bool
  | _, [] => true
  | [], _ :: _ => false
  | c :: cs, p :: ps => c == p && startsWithL cs ps

/-- Substring containment, Python `p in s`. -/
def strHasL (s p : List Char) : Bool :=
  match s with
  | [] => startsWithL [] p
  | c :: cs => startsWithL (c :: cs) p || strHasL cs p

def strHas (s pat : String) : Bool := strHasL s.toList pat.toList

/-- Scan for non-overlapping occurrences of `p`; `skip` is the number of
characters still covered by the previous match (not eligible as a start). -/
def countPatAux (p : List Char) : List Char → Nat → Nat
  | [], _ => 0
  | c :: cs, skip =>
    match skip with
    | k + 1 => countPatAux p cs k
    | 0 =>
      if !p.isEmpty && startsWithL (c :: cs) p then
        1 + countPatAux p cs (p.length - 1)
      else
        countPatAux p cs 0

/-- Non-overlapping occurrence count, Python `s.count(p)`. -/
def countPatL (s p : List Char) : Nat := countPatAux p s 0

def countPat (s pat : String) : Nat := countPatL s.toList pat.toList

/-- Index of the last occurrence of `p` in `s` (start position), if any. -/
def lastMatchAux (p : List Char) : List Char → Nat → Option Nat → Option Nat
  | [], _, acc => acc
  | c :: cs, i, acc =>
    lastMatchAux p cs (i + 1) (if startsWithL (c :: cs) p then some i else acc)

def lastMatchPos (s p : List Char) : Option Nat := lastMatchAux p s 0 none

/-- Python `s.split(pat)[-1]`: the suffix after the last occurrence of `pat`
(`s` itself when `pat` does not occur). -/
def splitLast (s pat : String) : String :=
  match lastMatchPos s.toList pat.toList with
  | none => s
  | some i => String.mk (s.toList.drop (i + pat.toList.length))

/-- Index of the last occurrence of a character. -/
def lastIdxAux (c : Char) : List Char → Nat → Option Nat → Option Nat
  | [], _, acc => acc
  | x :: xs, i, acc => lastIdxAux c xs (i + 1) (if x == c then some i else acc)

def lastIdx (c : Char) (l : List Char) : Option Nat := lastIdxAux c l 0 none

/-- Basename of a posix path: the part after the last `/`. -/
def baseNameL (l : List Char) : List Char :=
  match lastIdx '/' l with
  | none => l
  | some i => l.drop (i + 1)

def baseName (path : String) : String := String.mk (baseNameL path.toList)

/-- `os.path.splitext(base)[1]` on a basename: the extension including the
leading dot; a basename consisting only of leading dots has no extension. -/
def extSplitL (base : List Char) : String :=
  match lastIdx '.' base with
  | none => ""
  | some i =>
    if (base.take i).all (fun c => c == '.') then ""
    else String.mk (base.drop i)

/-- `os.path.splitext(file_path)[1]` for posix paths. -/
def fileExtension (path : String) : String := extSplitL (baseNameL path.toList)

/-- ASCII lower-casing of one character (`str.lower` on the inputs the core
lowercases: extensions, file names, error messages). -/
def charLower (c : Char) : Char :=
  if 'A' ≤ c && c ≤ 'Z' then Char.ofNat (c.toNat + 32) else c

/-- `s.lower()`. -/
def strToLower (s : String) : String := String.mk (s.toList.map charLower)

/-- `s.startswith(p)`. -/
def strStarts (s p : String) : Bool := startsWithL s.toList p.toList

/-- `s.strip()`: drop whitespace from both ends. -/
def trimL (l : List Char) : List Char :=
  ((l.dropWhile Char.isWhitespace).reverse.dropWhile Char.isWhitespace).reverse

def strTrim (s : String) : String := String.mk (trimL s.toList)

/-! ### Glob matching (`fnmatch.fnmatch`)

Supports `*`, `?`, `[seq]` / `[!seq]` character classes with ranges; an
unmatched `[` is a literal, as in `fnmatch.translate`.  Implemented with a
fuel argument; `pattern.length + name.length + 1` units always suffice since
every recursive call strictly shrinks `pattern.length + name.length`.
-/

/-- Characters of a class body up to the closing `]`, plus the rest. -/
def spanToClose : List Char → Option (List Char × List Char)
  | [] => none
  | ']' :: rest => some ([], rest)
  | c :: rest =>
    match spanToClose rest with
    | none => none
    | some (a, b) => some (c :: a, b)

/-- Membership of a char in a class body (with `a-z` ranges). -/
def inClass : List Char → Char → Bool
  | [], _ => false
  | a :: '-' :: b :: rest, c =>
    (a.val ≤ c.val && c.val ≤ b.val) || inClass rest c
  | a :: rest, c => a == c || inClass rest c

/-- Class body of a `[...]` pattern: strips an optional leading `!`
(negation) and treats a `]` in first position as a literal member. -/
def parseClass (ps : List Char) : Option (Bool × List Char × List Char) :=
  let (neg, ps1) := match ps with
    | '!' :: t => (true, t)
    | _ => (false, ps)
  match ps1 with
  | ']' :: t =>
    match spanToClose t with
    | none => none
    | some (a, b) => some (neg, ']' :: a, b)
  | _ =>
    match spanToClose ps1 with
    | none => none
    | some (a, b) => some (neg, a, b)

def globMatchAux : Nat → List Char → List Char → Bool
  | 0, _, _ => false
  | _ + 1, [], s => s.isEmpty
  | fuel + 1, '*' :: ps, s =>
    globMatchAux fuel ps s ||
      (match s with
       | [] => false
       | _ :: cs => globMatchAux fuel ('*' :: ps) cs)
  | fuel + 1, '?' :: ps, s =>
    match s with
    | [] => false
    | _ :: cs => globMatchAux fuel ps cs
  | fuel + 1, '[' :: ps, s =>
    match parseClass ps with
    | some (neg, body, rest) =>
      (match s with
       | [] => false
       | c :: cs =>
         (if neg then !(inClass body c) else inClass body c) &&
           globMatchAux fuel rest cs)
    | none =>
      -- no closing ']': '[' is a literal character
      match s with
      | [] => false
      | c :: cs => c == '[' && globMatchAux fuel ps cs
  | fuel + 1, p :: ps, s =>
    match s with
    | [] => false
    | c :: cs => p == c && globMatchAux fuel ps cs

/-- `fnmatch.fnmatch(name, pat)` (posix: case-sensitive). -/
def fnmatchB (name pat : String) : Bool :=
  globMatchAux (pat.toList.length + name.toList.length + 1) pat.toList name.toList

/-! ### Exception taxonomy (`gitmove/exceptions.py`)

`gitCommandError` stands for GitPython's raw `GitCommandError`; the other
constructors are GitMove's own hierarchy.  `recoveryError` derives from
`OperationError`, not `GitError`.
-/

inductive PyExc where
  | gitCommandError (msg : String)
  | mergeConflictError (msg : String)
  | missingBranchError (msg : String)
  | dirtyWorkingTreeError (msg : String)
  | syncError (msg : String)
  | gitError (msg : String)
  | recoveryError (msg : String)
  deriving Repr, DecidableEq

/-- `isinstance(e, GitCommandError)` for the model. -/
def isGitCommandError : PyExc → Bool
  | .gitCommandError _ => true
  | _ => false

/-- `isinstance(e, GitError)` (GitMove's `GitError` hierarchy). -/
def isGitErrorKind : PyExc → Bool
  | .mergeConflictError _ => true
  | .missingBranchError _ => true
  | .dirtyWorkingTreeError _ => true
  | .syncError _ => true
  | .gitError _ => true
  | _ => false

/-- `convert_git_error` applied to a `GitCommandError` with message `msg`:
ordered substring table over the engine's message text. -/
def convertGitError (msg : String) (custom : Option String) : PyExc :=
  let errorMsg := custom.getD msg
  if strHas (strToLower msg) "conflict" then .mergeConflictError errorMsg
  else if strHas msg "not a valid object name" ||
          strHas msg "did not match any file(s) known to git" then
    .missingBranchError errorMsg
  else if !(strHas msg "working tree clean") && strHas msg "changes not staged" then
    .dirtyWorkingTreeError errorMsg
  else if strHas msg "refusing to pull" || strHas msg "refusing to merge" then
    .syncError errorMsg
  else .gitError errorMsg

/-- The `safe_git_command` decorator: converts a raw `GitCommandError`,
re-raises GitMove `GitError`s, and wraps anything else as a `GitError`. -/
def safeGitCommand {α : Type} (r : Except PyExc α) : Except PyExc α :=
  match r with
  | .ok a => .ok a
  | .error (.gitCommandError m) => .error (convertGitError m none)
  | .error e =>
    if isGitErrorKind e then .error e
    else .error (.gitError "Erreur lors de la execution de la commande Git")

/-! ### The git engine oracle

Every primitive git command the core invokes is fixed by an environment.
A `none` / `true`-failure field stands for the command raising
`GitCommandError` (or, where noted, an unexpected non-`GitCommandError`
exception) — the source helpers in `gitmove/utils/git_commands.py` decide
what that failure degrades to.
-/

structure GitEnv where
  /-- `git merge-base b t`: `none` models `GitCommandError`
  (no common ancestor / unknown ref). -/
  mergeBase : String → String → Option String
  /-- A non-`GitCommandError` exception inside `get_common_ancestor`, which
  the `safe_git_command` wrapper re-raises as a GitMove `GitError`. -/
  ancestorRaises : String → String → Bool
  /-- `git diff --name-only a..b` raises `GitCommandError`
  (swallowed by `get_modified_files`, which returns the empty set). -/
  diffFails : String → String → Bool
  /-- Files listed by `git diff --name-only a..b` on success. -/
  diffFiles : String → String → List String
  /-- Unexpected exception during merge simulation
  (clone / checkout / status of the throwaway copy). -/
  simExc : String → String → Bool
  /-- The simulated `git merge --no-commit --no-ff` raises `GitCommandError`. -/
  mergeRaises : String → String → Bool
  /-- Lines of `git status` in the throwaway copy after the failed merge. -/
  statusLines : String → String → List String
  /-- `git diff src:path tgt:path` for a single conflicting file. -/
  fileDiff : String → String → String → String
  /-- The per-file `git diff src:path tgt:path` raises. -/
  fileDiffRaises : String → String → String → Bool
  /-- `git fetch origin --prune` raises `GitCommandError`. -/
  fetchFails : Bool
  /-- `(ahead, behind)` rev-list counts between two refs, on success. -/
  divergence : String → String → Nat × Nat
  /-- One of the rev-list count commands of `get_branch_divergence`
  raises `GitCommandError`. -/
  revListFails : String → String → Bool
  /-- Age of a branch in days (`get_branch_age`). -/
  branchAge : String → Nat
  /-- Total commit count of a branch (`get_branch_commit_count`). -/
  commitCount : String → Nat
  /-- An unexpected exception escapes `_analyze_branch` into
  `get_strategy_advice`'s top-level handler. -/
  analyzeRaises : String → String → Bool

/-- The configuration values the core reads (`config.get_value` with the
defaults applied by each call site). -/
structure Config where
  mainBranch : String := "main"
  defaultStrategy : String := "rebase"
  rebaseThreshold : Nat := 5
  considerBranchAge : Bool := true
  forceMergePatterns : List String := []
  forceRebasePatterns : List String := []
  showDiff : Bool := true

/-! ### Low-level helpers (`gitmove/utils/git_commands.py`) -/

/-- `get_branch_divergence`: merge-base plus two rev-list counts; any
`GitCommandError` degrades to `(0, 0)`. -/
def get_branch_divergence (env : GitEnv) (branch_name target_branch : String) :
    Nat × Nat :=
  if (env.mergeBase branch_name target_branch).isNone ||
      env.revListFails branch_name target_branch then (0, 0)
  else env.divergence branch_name target_branch

/-- `get_common_ancestor`: `GitCommandError` degrades to `None`; any other
exception escapes via `safe_git_command` as a GitMove `GitError`. -/
def get_common_ancestor (env : GitEnv) (branch1 branch2 : String) :
    Except PyExc (Option String) :=
  if env.ancestorRaises branch1 branch2 then
    .error (.gitError "Erreur lors de la execution de la commande Git")
  else .ok (env.mergeBase branch1 branch2)

/-- `get_modified_files`: file set between two refs; a `GitCommandError`
degrades to the empty set. -/
def get_modified_files (env : GitEnv) (since_commit until_commit : String) :
    List String :=
  if env.diffFails since_commit until_commit then []
  else env.diffFiles since_commit until_commit

/-- `fetch_updates`: fetch wrapped in `safe_git_command`, so a raw
`GitCommandError` reaches the caller converted to a GitMove `GitError`. -/
def fetch_updates (env : GitEnv) : Except PyExc Bool :=
  safeGitCommand
    (if env.fetchFails then .error (.gitCommandError "fetch failed") else .ok true)

/-! ### ConflictDetector (`gitmove/core/conflict_detector.py`) -/

structure ConflictEntry where
  file_path : String
  conflict_type : String
  severity : String
  modified_lines : Nat := 0
  diff : String := ""
  /-- Per-file analysis error (`_analyze_conflicts` fallback entry). -/
  error : Option String := none
  deriving Repr, DecidableEq

/-- The dictionary returned by `detect_conflicts`; keys that a given code
path does not set keep their defaults. -/
structure ConflictReport where
  has_conflicts : Bool
  conflicting_files : List ConflictEntry := []
  common_modified_files : List String := []
  conflict_count : Option Nat := none
  error : Option String := none
  suggestions : List String := []
  deriving Repr, DecidableEq

/-- `_classify_conflict`: file type from the extension, severity from the
changed-line count with critical-pattern overrides; an empty diff gives the
sentinel severity `"Inconnue"`. -/
def classify_conflict (file_path diff_output : String) : String × String :=
  let file_extension := strToLower (fileExtension file_path)
  let file_type :=
    if [".py", ".js", ".java", ".c", ".cpp", ".go", ".rb"].contains file_extension then
      "Code source"
    else if [".json", ".xml", ".yaml", ".yml", ".toml", ".ini"].contains file_extension then
      "Configuration"
    else if [".md", ".txt", ".rst"].contains file_extension then
      "Documentation"
    else if [".html", ".css", ".scss", ".less"].contains file_extension then
      "Interface web"
    else "Autre"
  if diff_output = "" then (file_type, "Inconnue")
  else
    let additions := countPat diff_output "\n+"
    let deletions := countPat diff_output "\n-"
    let changes := additions + deletions
    let severity0 :=
      if changes ≤ 5 then "Faible"
      else if changes ≤ 20 then "Moyenne"
      else "Élevée"
    let severity1 :=
      if strHas diff_output "import" || strHas diff_output "require" then "Élevée"
      else severity0
    let severity2 :=
      if strHas diff_output "function" || strHas diff_output "def " ||
          strHas diff_output "class" then "Élevée"
      else severity1
    (file_type, severity2)

/-- `_count_modified_lines`: `re.findall` of `\n\+` and `\n\-`
(non-overlapping, hence the same count as `str.count`). -/
def count_modified_lines (diff_output : String) : Nat :=
  if diff_output = "" then 0
  else countPat diff_output "\n+" + countPat diff_output "\n-"

/-- Status parsing of `_simulate_merge`: the "both modified:" entries. -/
def parseBothModified (lines : List String) : List String :=
  lines.filterMap fun l =>
    let line := strTrim l
    if strHas line "both modified:" then
      some (strTrim (splitLast line "both modified:"))
    else none

/-- Sentinel file list returned when the simulation itself errors. -/
def sim_sentinel : String := "Erreur lors de la simulation"

/-- `_simulate_merge`: no-conflict gives `[]`, a failed merge gives the
"both modified" files from the status output, and any other exception gives
the sentinel list. -/
def simulate_merge (env : GitEnv) (source_branch target_branch : String) :
    List String :=
  if env.simExc source_branch target_branch then [sim_sentinel]
  else if env.mergeRaises source_branch target_branch then
    parseBothModified (env.statusLines source_branch target_branch)
  else []

/-- `_analyze_conflicts`: one detailed entry per conflicting file; a per-file
failure degrades to an `"Inconnu"` / `"Élevée"` entry carrying the error. -/
def analyze_conflicts (env : GitEnv) (cfg : Config) (conflicting_files : List String)
    (source_branch target_branch : String) : List ConflictEntry :=
  conflicting_files.map fun file_path =>
    if cfg.showDiff && env.fileDiffRaises source_branch target_branch file_path then
      { file_path := file_path, conflict_type := "Inconnu", severity := "Élevée",
        error := some "Erreur lors de la analyse du conflit" }
    else
      let diff_output :=
        if cfg.showDiff then env.fileDiff source_branch target_branch file_path
        else ""
      let tySev := classify_conflict file_path diff_output
      { file_path := file_path, conflict_type := tySev.1, severity := tySev.2,
        modified_lines := count_modified_lines diff_output,
        diff := if cfg.showDiff then diff_output else "" }

/-- `_generate_suggestions`. -/
def generate_suggestions (conflicts : List ConflictEntry)
    (_source_branch target_branch : String) : List String :=
  if conflicts = [] then []
  else
    let high_severity_count := (conflicts.filter (fun c => c.severity == "Élevée")).length
    let _medium_severity_count := (conflicts.filter (fun c => c.severity == "Moyenne")).length
    let _low_severity_count := (conflicts.filter (fun c => c.severity == "Faible")).length
    let total_conflicts := conflicts.length
    let s1 : List String :=
      if high_severity_count > 0 then
        if high_severity_count = total_conflicts then
          ["Tous les conflits sont de gravite elevee. Envisagez de travailler sur les fichiers un par un."]
        else
          [s!"{high_severity_count} conflit(s) de gravite elevee detecte(s). Resolvez les fichiers moins critiques."]
      else []
    let config_files := conflicts.filter (fun c => c.conflict_type == "Configuration")
    let nconfig := config_files.length
    let s2 : List String :=
      if config_files ≠ [] then
        [s!"Conflit(s) dans {nconfig} fichier(s) de configuration."]
      else []
    let s3 : List String :=
      if total_conflicts > 5 then
        [s!"Nombre eleve de conflits ({total_conflicts}). Envisagez de diviser cette branche."]
      else []
    let s4 : List String :=
      [s!"Synchronisez regulierement votre branche avec {target_branch} pour minimiser les conflits futurs."]
    -- Python compares against the real number `total_conflicts / 2`; for
    -- naturals `high > total / 2` (floor) is equivalent to `2 * high > total`.
    let s5 : List String :=
      if high_severity_count > total_conflicts / 2 then
        ["En raison de la gravite des conflits, envisagez de utiliser merge plutot que rebase."]
      else
        ["Pour ces conflits, la strategie rebase peut etre appropriee."]
    s1 ++ s2 ++ s3 ++ s4 ++ s5

/-- Files modified on both sides since the common ancestor. -/
def common_modified (env : GitEnv) (ancestor branch_name target_branch : String) :
    List String :=
  (get_modified_files env ancestor branch_name).filter
    (fun f => (get_modified_files env ancestor target_branch).contains f)

/-- `detect_conflicts`.  The outer `except` of the source catches every
exception raised in the body and degrades to the conservative error report;
in the model the only raising call is `get_common_ancestor`
(`env.ancestorRaises`): every other helper swallows its own git failures. -/
def detect_conflicts (env : GitEnv) (cfg : Config)
    (branch_name target_branch : String) : ConflictReport :=
  if branch_name = target_branch then
    { has_conflicts := false, conflicting_files := [], suggestions := [] }
  else if env.ancestorRaises branch_name target_branch then
    { has_conflicts := true,
      error := some "Erreur lors de la execution de la commande Git",
      conflicting_files := [],
      suggestions := ["Erreur lors de la detection des conflits, verifier manuellement"] }
  else
    match env.mergeBase branch_name target_branch with
    | none =>
      { has_conflicts := true, conflicting_files := [],
        error := some "Pas de ancetre commun trouve",
        suggestions := ["Effectuer un rebase de la branche sur la branche cible"] }
    | some ancestor =>
      let common_files := common_modified env ancestor branch_name target_branch
      if common_files = [] then
        { has_conflicts := false, conflicting_files := [], suggestions := [] }
      else
        let conflicting_files := simulate_merge env branch_name target_branch
        if conflicting_files = [] then
          { has_conflicts := false, common_modified_files := common_files,
            suggestions :=
              ["Les fichiers modifies en commun peuvent etre fusionnes automatiquement"] }
        else
          let detailed_conflicts :=
            analyze_conflicts env cfg conflicting_files branch_name target_branch
          let suggestions :=
            generate_suggestions detailed_conflicts branch_name target_branch
          { has_conflicts := true, conflicting_files := detailed_conflicts,
            common_modified_files := common_files,
            conflict_count := some detailed_conflicts.length,
            suggestions := suggestions }

/-! ### StrategyAdvisor (`gitmove/core/strategy_advisor.py`) -/

/-- `_get_file_type`. -/
def get_file_type (file_path : String) : String :=
  let file_name := strToLower (baseName file_path)
  let extension := strToLower (extSplitL file_name.toList)
  if strHas file_name "test" || strHas file_name "spec" then "test"
  else if [".py", ".js", ".ts", ".java", ".c", ".cpp", ".cs", ".go", ".rb", ".php"].contains extension then
    "code"
  else if [".json", ".xml", ".yaml", ".yml", ".toml", ".ini", ".cfg", ".conf"].contains extension then
    "config"
  else if [".md", ".txt", ".rst", ".adoc", ".pdf", ".doc", ".docx"].contains extension then
    "doc"
  else if [".html", ".css", ".scss", ".less", ".sass"].contains extension then
    "code"
  else if [".sql", ".graphql"].contains extension then "code"
  else "other"

/-- `_get_branch_pattern`. -/
def get_branch_pattern (branch_name : String) : String :=
  if strStarts branch_name "feature/" || strStarts branch_name "feat/" then "feature"
  else if strStarts branch_name "fix/" || strStarts branch_name "bugfix/" ||
      strStarts branch_name "hotfix/" then "bugfix"
  else if strStarts branch_name "release/" then "release"
  else if strStarts branch_name "chore/" then "chore"
  else if strStarts branch_name "doc/" || strStarts branch_name "docs/" then "doc"
  else if strStarts branch_name "test/" then "test"
  else "unknown"

/-- The `file_stats` counters of `_analyze_branch` (the "other" bucket counts
everything whose type is neither code, config nor doc — tests included). -/
structure FileStats where
  total : Nat
  code : Nat
  config : Nat
  doc : Nat
  other : Nat
  deriving Repr, DecidableEq

/-- The analysis snapshot gathered by `_analyze_branch`.  `file_stats` is
`none` when the key is never set (no common ancestor); the exception branch
of the source stores an error dictionary whose numeric lookups all default
to `0`, which the model renders as all-zero stats. -/
structure Analysis where
  ahead_commits : Nat
  behind_commits : Nat
  branch_age_days : Nat
  commit_count : Nat
  file_stats : Option FileStats
  has_conflicts : Bool
  conflict_count : Nat
  sev_high : Nat
  sev_medium : Nat
  sev_low : Nat
  branch_pattern : String
  deriving Repr, DecidableEq

/-- `_analyze_branch`. -/
def analyze_branch (env : GitEnv) (cfg : Config)
    (branch_name target_branch : String) : Analysis :=
  let ab := get_branch_divergence env branch_name target_branch
  let branch_age := env.branchAge branch_name
  let commit_count := env.commitCount branch_name
  let file_stats : Option FileStats :=
    if env.ancestorRaises branch_name target_branch then
      -- `{"error": ...}`: every numeric lookup on it defaults to 0
      some { total := 0, code := 0, config := 0, doc := 0, other := 0 }
    else
      match env.mergeBase branch_name target_branch with
      | none => none
      | some ancestor =>
        let modified_files := get_modified_files env ancestor branch_name
        some
          { total := modified_files.length,
            code := (modified_files.filter (fun f => get_file_type f == "code")).length,
            config := (modified_files.filter (fun f => get_file_type f == "config")).length,
            doc := (modified_files.filter (fun f => get_file_type f == "doc")).length,
            other := (modified_files.filter
              (fun f => !(["code", "config", "doc"].contains (get_file_type f)))).length }
  let conflicts := detect_conflicts env cfg branch_name target_branch
  let cf := conflicts.conflicting_files
  let conflict_count := if conflicts.has_conflicts then cf.length else 0
  let sev_high :=
    if conflicts.has_conflicts then (cf.filter (fun c => c.severity == "Élevée")).length
    else 0
  let sev_medium :=
    if conflicts.has_conflicts then (cf.filter (fun c => c.severity == "Moyenne")).length
    else 0
  let sev_low :=
    if conflicts.has_conflicts then (cf.filter (fun c => c.severity == "Faible")).length
    else 0
  { ahead_commits := ab.1, behind_commits := ab.2,
    branch_age_days := branch_age, commit_count := commit_count,
    file_stats := file_stats,
    has_conflicts := conflicts.has_conflicts,
    conflict_count := conflict_count,
    sev_high := sev_high, sev_medium := sev_medium, sev_low := sev_low,
    branch_pattern := get_branch_pattern branch_name }

/-- `_determine_strategy`: independent rebase-favoring and merge-favoring
factor lists, decided by comparing their lengths, ties going to merge. -/
def determine_strategy (cfg : Config) (analysis : Analysis) : String × String :=
  let ahead := analysis.ahead_commits
  let thr := cfg.rebaseThreshold
  let f1 : List String × List String :=
    if ahead ≤ thr then ([s!"Peu de commits ({ahead} <= {thr})"], [])
    else ([], [s!"Nombreux commits ({ahead} > {thr})"])
  let age := analysis.branch_age_days
  let f2 : List String × List String :=
    if cfg.considerBranchAge then
      if age ≤ 7 then ([s!"Branche recente ({age} jours)"], [])
      else if age ≥ 30 then ([], [s!"Branche ancienne ({age} jours)"])
      else ([], [])
    else ([], [])
  let hi := analysis.sev_high
  let cc := analysis.conflict_count
  let f3 : List String × List String :=
    if analysis.has_conflicts then
      if hi > 0 then ([], [s!"{hi} conflit(s) de gravite elevee"])
      else if cc > 3 then ([], [s!"Nombreux conflits ({cc} fichiers)"])
      else ([s!"Peu de conflits ({cc} fichiers)"], [])
    else (["Pas de conflits detectes"], [])
  let f4 : List String × List String :=
    match analysis.file_stats with
    | some fs =>
      let nconfig := fs.config
      let ncode := fs.code
      let m1 := if nconfig > 0 then [s!"{nconfig} fichier(s) de configuration modifie(s)"] else []
      let m2 := if ncode > 10 then [s!"Nombreux fichiers de code modifies ({ncode})"] else []
      ([], m1 ++ m2)
    | none => ([], [])
  let f5 : List String × List String :=
    if analysis.branch_pattern = "feature" then ([], ["Branche de fonctionnalite (feature/*)"])
    else if analysis.branch_pattern = "bugfix" then (["Branche de correction de bug (fix/*)"], [])
    else ([], [])
  let rebase_factors := f1.1 ++ f2.1 ++ f3.1 ++ f4.1 ++ f5.1
  let merge_factors := f1.2 ++ f2.2 ++ f3.2 ++ f4.2 ++ f5.2
  if rebase_factors.length > merge_factors.length then
    let reason := "Rebase recommande: " ++ String.intercalate ", " (rebase_factors.take 2)
    let reason :=
      if merge_factors ≠ [] then
        reason ++ " (malgre " ++ String.intercalate ", " (merge_factors.take 1) ++ ")"
      else reason
    ("rebase", reason)
  else if merge_factors.length > rebase_factors.length then
    let reason := "Merge recommande: " ++ String.intercalate ", " (merge_factors.take 2)
    let reason :=
      if rebase_factors ≠ [] then
        reason ++ " (malgre " ++ String.intercalate ", " (rebase_factors.take 1) ++ ")"
      else reason
    ("merge", reason)
  else
    ("merge", "Merge recommande par defaut (facteurs equilibres)")

/-- `_check_forced_strategy`: the merge-forcing list is scanned first and the
first match anywhere returns immediately. -/
def check_forced_strategy (cfg : Config) (branch_name : String) : Option String :=
  if cfg.forceMergePatterns.any (fun pattern => fnmatchB branch_name pattern) then
    some "merge"
  else if cfg.forceRebasePatterns.any (fun pattern => fnmatchB branch_name pattern) then
    some "rebase"
  else none

structure Advice where
  strategy : String
  reason : String
  details : Option Analysis := none
  deriving Repr, DecidableEq

/-- `get_strategy_advice`: equality short-circuit, then analysis, then forced
patterns, then multi-factor scoring; any exception degrades to `merge`. -/
def get_strategy_advice (env : GitEnv) (cfg : Config)
    (branch_name target_branch : String) : Advice :=
  if branch_name = target_branch then
    { strategy := "none",
      reason := "La branche est identique a la branche cible" }
  else if env.analyzeRaises branch_name target_branch then
    -- top-level handler: merge is the safe default
    { strategy := "merge", reason := "Erreur lors de la analyse" }
  else
    let analysis_data := analyze_branch env cfg branch_name target_branch
    match check_forced_strategy cfg branch_name with
    | some force_strategy =>
      { strategy := force_strategy,
        reason := "Strategie forcee pour les branches correspondant au motif",
        details := some analysis_data }
    | none =>
      let sr := determine_strategy cfg analysis_data
      { strategy := sr.1, reason := sr.2, details := some analysis_data }

/-! ### SyncManager (`gitmove/core/sync_manager.py`) -/

structure SyncStatus where
  is_synced : Bool
  branch : String
  target : String
  ahead_commits : Nat
  behind_commits : Nat
  message : String
  deriving Repr, DecidableEq

/-- `check_sync_status`.  The source wraps `fetch_updates` in
`except GitCommandError`, but `fetch_updates` only ever raises the
*converted* GitMove error (`safe_git_command`), so a failed fetch
propagates out of the status check. -/
def check_sync_status (env : GitEnv) (cfg : Config) (branch_name : String) :
    Except PyExc SyncStatus :=
  if branch_name = cfg.mainBranch then
    .ok { is_synced := true, branch := branch_name, target := cfg.mainBranch,
          ahead_commits := 0, behind_commits := 0,
          message := "La branche est la branche principale" }
  else
    let afterFetch : Except PyExc Unit :=
      match fetch_updates env with
      | .ok _ => .ok ()
      | .error e =>
        if isGitCommandError e then .ok ()   -- the dead `except GitCommandError` arm
        else .error e
    match afterFetch with
    | .error e => .error e
    | .ok _ =>
      let ab := get_branch_divergence env branch_name cfg.mainBranch
      let ahead := ab.1
      let behind := ab.2
      .ok { is_synced := behind == 0, branch := branch_name, target := cfg.mainBranch,
            ahead_commits := ahead, behind_commits := behind,
            message :=
              if behind == 0 then
                "La branche est a jour avec la branche principale"
              else if ahead > 0 then
                s!"La branche est en retard de {behind} commit(s) par rapport a la branche principale et en avance de {ahead} commit(s)"
              else
                s!"La branche est en retard de {behind} commit(s) par rapport a la branche principale" }

/-- `_determine_sync_strategy`: returns the configured default outright when
it is `merge`/`rebase`; otherwise few-ahead-commits decides `rebase` *before*
the forced patterns, then conflicts are consulted.  (Nothing in the
computation raises in the model, so the source's `except` fallback branch is
unreachable here.) -/
def determine_sync_strategy (env : GitEnv) (cfg : Config)
    (branch_name target_branch : String) : String :=
  let strategy := cfg.defaultStrategy
  if strategy = "merge" || strategy = "rebase" then strategy
  else
    let ab := get_branch_divergence env branch_name target_branch
    if ab.1 ≤ cfg.rebaseThreshold then "rebase"
    else if cfg.forceMergePatterns.any (fun pattern => fnmatchB branch_name pattern) then
      "merge"
    else if cfg.forceRebasePatterns.any (fun pattern => fnmatchB branch_name pattern) then
      "rebase"
    else
      let conflicts := detect_conflicts env cfg branch_name target_branch
      if conflicts.has_conflicts then
        let high_severity :=
          (conflicts.conflicting_files.filter (fun c => c.severity == "Élevée")).length
        if high_severity > 0 || conflicts.conflicting_files.length > 3 then "merge"
        else "rebase"
      else "rebase"

/-! ### RecoveryManager (`gitmove/utils/recovery_manager.py`)

The repository state is modelled by the coordinates the recovery manager
observes and restores: current branch (`none` = detached HEAD), HEAD commit,
working-tree dirtiness, and the stash stack (newest first).  Git primitives
are modelled by their effect on these coordinates: `reset --hard c` sets the
HEAD commit (and cleans the tree), `checkout b` sets the current branch,
`stash save` moves the dirty tree onto the stack, `stash apply`/`drop`
restore and remove it.  Which primitive fails (raises `GitCommandError`) is
fixed by a `RecoveryEnv`.
-/

structure RepoState where
  branch : Option String
  head : Nat
  dirty : Bool
  stashes : List Nat
  nextStash : Nat
  deriving Repr, DecidableEq

structure RecoveryEnv where
  stashSaveFails : Bool
  resetFails : Bool
  checkoutFails : Bool
  stashApplyFails : Bool
  deriving Repr, DecidableEq

/-- The snapshot dictionary built by `save_state`. -/
structure SavedState where
  current_branch : Option String
  head_commit : Option Nat
  stash_created : Bool
  stash_id : Option Nat
  deriving Repr, DecidableEq

/-- Manager state: the `saved_states` map (first binding wins) and the
registered `recovery_actions`. -/
structure RecMgr where
  savedStates : List (String × SavedState)
  recoveryActions : List (RepoState → RepoState)

/-- `execute_recovery_actions`: run the registered actions in reverse
registration order (the model treats each action as total; the source
collects and logs their errors without raising). -/
def execute_recovery_actions (mgr : RecMgr) (st : RepoState) : RepoState :=
  mgr.recoveryActions.reverse.foldl (fun s a => a s) st

/-- `save_state`: capture current branch and HEAD; stash a dirty tree and
record the stash id (`_get_last_stash_id` = newest stash).  A failing stash
save is caught by the outer handler: the partial snapshot is returned but
*not* stored in `saved_states`. -/
def save_state (renv : RecoveryEnv) (mgr : RecMgr) (name : String) (st : RepoState) :
    RecMgr × RepoState × SavedState :=
  let state0 : SavedState :=
    { current_branch := st.branch, head_commit := some st.head,
      stash_created := false, stash_id := none }
  if st.dirty then
    if renv.stashSaveFails then
      (mgr, st, state0)
    else
      let st2 : RepoState :=
        { st with dirty := false, stashes := st.nextStash :: st.stashes,
                  nextStash := st.nextStash + 1 }
      let state2 : SavedState :=
        { state0 with stash_created := true, stash_id := some st.nextStash }
      ({ mgr with savedStates := (name, state2) :: mgr.savedStates }, st2, state2)
  else
    ({ mgr with savedStates := (name, state0) :: mgr.savedStates }, st, state0)

/-- `restore_state`: reset to the recorded HEAD, check out the recorded
branch, re-apply and drop the recorded stash; under `force = False` the
first failing step raises the converted git error, under `force = True`
failures are logged and restoration continues.  On success the state is
removed from `saved_states`. -/
def restore_state (renv : RecoveryEnv) (mgr : RecMgr) (name : String) (force : Bool)
    (st : RepoState) : Except PyExc (RecMgr × RepoState) :=
  match mgr.savedStates.lookup name with
  | none => .error (.recoveryError s!"Etat inconnu: {name}")
  | some state =>
    let step1 : Except PyExc RepoState :=
      match state.head_commit with
      | some c =>
        if renv.resetFails then
          if force then .ok st
          else .error (convertGitError "reset failed"
            (some "Impossible de revenir au commit precedent"))
        else .ok { st with head := c, dirty := false }
      | none => .ok st
    match step1 with
    | .error e => .error e
    | .ok st1 =>
      let step2 : Except PyExc RepoState :=
        match state.current_branch with
        | some b =>
          if renv.checkoutFails then
            if force then .ok st1
            else .error (convertGitError "checkout failed"
              (some "Impossible de revenir a la branche"))
          else .ok { st1 with branch := some b }
        | none => .ok st1
      match step2 with
      | .error e => .error e
      | .ok st2 =>
        let step3 : Except PyExc RepoState :=
          if state.stash_created then
            match state.stash_id with
            | some sid =>
              if renv.stashApplyFails then
                if force then .ok st2
                else .error (convertGitError "stash apply failed"
                  (some "Impossible de appliquer le stash"))
              else .ok { st2 with dirty := true, stashes := st2.stashes.erase sid }
            | none => .ok st2
          else .ok st2
        match step3 with
        | .error e => .error e
        | .ok st3 =>
          .ok ({ mgr with savedStates := mgr.savedStates.filter (fun p => p.1 ≠ name) },
               st3)

/-- `safe_operation`: save state, run the operation, and on any exception
attempt `restore_state` (followed by the recovery callback and the
registered recovery actions); a restoration failure is logged and discarded,
and the operation's original exception is re-raised in every case.  The
operation is a state transformer that may additionally raise: it returns the
(partially mutated) repository state together with the exception, mirroring
a Python exception escaping mid-mutation. -/
def safe_operation (renv : RecoveryEnv) (mgr : RecMgr) (name : String)
    (recovery_callback : Option (RepoState → RepoState))
    (op : RepoState → RepoState × Option PyExc) (st : RepoState) :
    RecMgr × RepoState × Option PyExc :=
  let saved := save_state renv mgr name st
  let mgr1 := saved.1
  let st1 := saved.2.1
  match op st1 with
  | (st2, none) => (mgr1, st2, none)
  | (st2, some e) =>
    match restore_state renv mgr1 name false st2 with
    | .ok (mgr2, st3) =>
      let st4 :=
        match recovery_callback with
        | some cb => cb st3
        | none => st3
      (mgr2, execute_recovery_actions mgr2 st4, some e)
    | .error _ => (mgr1, st2, some e)

/-! ### Spec-side predicates and concrete scenarios

`critical_patterns` renders the specification's "the diff touches
import/require statements or function/class signatures" exactly as the
source tests it; the concrete environments below instantiate the oracle for
witnesses and counterexamples.
-/

/-- The critical-pattern condition of the severity override. -/
def critical_patterns (diff_output : String) : Bool :=
  strHas diff_output "import" || strHas diff_output "require" ||
    strHas diff_output "function" || strHas diff_output "def " ||
    strHas diff_output "class"

/-- A benign oracle: every git command succeeds, the two branches share the
ancestor `"anc"`, no files were touched, divergence is `(2, 1)`. -/
def baseEnv : GitEnv where
  mergeBase := fun _ _ => some "anc"
  ancestorRaises := fun _ _ => false
  diffFails := fun _ _ => false
  diffFiles := fun _ _ => []
  simExc := fun _ _ => false
  mergeRaises := fun _ _ => false
  statusLines := fun _ _ => []
  fileDiff := fun _ _ _ => ""
  fileDiffRaises := fun _ _ _ => false
  fetchFails := false
  divergence := fun _ _ => (2, 1)
  revListFails := fun _ _ => false
  branchAge := fun _ => 3
  commitCount := fun _ => 2
  analyzeRaises := fun _ _ => false

/-- All configuration defaults. -/
def cfgD : Config := {}

/-- Defaults, except the sync default strategy is `auto` and `feature/*`
branches force merge. -/
def cfgAuto : Config :=
  { defaultStrategy := "auto", forceMergePatterns := ["feature/*"] }

/-- Benign oracle except `git fetch` fails. -/
def envFetchFail : GitEnv := { baseEnv with fetchFails := true }

/-- Both branches touched `f.py` and the merge simulation dies with an
unexpected error (e.g. the temporary clone fails). -/
def envSimFail : GitEnv :=
  { baseEnv with diffFiles := fun _ _ => ["f.py"], simExc := fun _ _ => true }

/-- Both branches touched `f.py`, but listing modified files raises
`GitCommandError` inside `get_modified_files`. -/
def envDiffFail : GitEnv :=
  { baseEnv with diffFiles := fun _ _ => ["f.py"], diffFails := fun _ _ => true }

/-- The common-ancestor lookup dies with a non-`GitCommandError` error. -/
def envAncRaises : GitEnv := { baseEnv with ancestorRaises := fun _ _ => true }

/-- Benign oracle with divergence `(7, 1)`: ahead of the rebase threshold. -/
def envAhead7 : GitEnv := { baseEnv with divergence := fun _ _ => (7, 1) }

/-- Recovery scenario: every rollback primitive succeeds. -/
def renvOk : RecoveryEnv :=
  { stashSaveFails := false, resetFails := false, checkoutFails := false,
    stashApplyFails := false }

/-- Fresh recovery manager. -/
def mgr0 : RecMgr := { savedStates := [], recoveryActions := [] }

/-- A repository on `main` at commit `7` with a dirty tree. -/
def st0 : RepoState :=
  { branch := some "main", head := 7, dirty := true, stashes := [], nextStash := 0 }

/-- An operation that mutates branch/HEAD and then raises. -/
def opFail : RepoState → RepoState × Option PyExc := fun s =>
  ({ s with branch := some "feature", head := 99, dirty := true },
   some (.gitError "boom"))

/-! ### Path characterizations of `detect_conflicts` -/

theorem detect_same (env : GitEnv) (cfg : Config) {b t : String} (h : b = t) :
    detect_conflicts env cfg b t =
      { has_conflicts := false, conflicting_files := [], suggestions := [] } := by
  simp [detect_conflicts, h]

theorem detect_ancestor_raises (env : GitEnv) (cfg : Config) {b t : String}
    (hbt : b ≠ t) (h : env.ancestorRaises b t = true) :
    detect_conflicts env cfg b t =
      { has_conflicts := true,
        error := some "Erreur lors de la execution de la commande Git",
        conflicting_files := [],
        suggestions := ["Erreur lors de la detection des conflits, verifier manuellement"] } := by
  simp [detect_conflicts, hbt, h]

theorem detect_no_ancestor (env : GitEnv) (cfg : Config) {b t : String}
    (hbt : b ≠ t) (h1 : env.ancestorRaises b t = false)
    (h2 : env.mergeBase b t = none) :
    detect_conflicts env cfg b t =
      { has_conflicts := true, conflicting_files := [],
        error := some "Pas de ancetre commun trouve",
        suggestions := ["Effectuer un rebase de la branche sur la branche cible"] } := by
  simp [detect_conflicts, hbt, h1, h2]

theorem detect_no_common (env : GitEnv) (cfg : Config) {b t a : String}
    (hbt : b ≠ t) (h1 : env.ancestorRaises b t = false)
    (h2 : env.mergeBase b t = some a) (h3 : common_modified env a b t = []) :
    detect_conflicts env cfg b t =
      { has_conflicts := false, conflicting_files := [], suggestions := [] } := by
  simp [detect_conflicts, hbt, h1, h2, h3]

theorem detect_sim_clean (env : GitEnv) (cfg : Config) {b t a : String}
    (hbt : b ≠ t) (h1 : env.ancestorRaises b t = false)
    (h2 : env.mergeBase b t = some a) (h3 : common_modified env a b t ≠ [])
    (h4 : simulate_merge env b t = []) :
    detect_conflicts env cfg b t =
      { has_conflicts := false,
        common_modified_files := common_modified env a b t,
        suggestions :=
          ["Les fichiers modifies en commun peuvent etre fusionnes automatiquement"] } := by
  simp [detect_conflicts, hbt, h1, h2, h3, h4]

theorem detect_conflict_path (env : GitEnv) (cfg : Config) {b t a : String}
    (hbt : b ≠ t) (h1 : env.ancestorRaises b t = false)
    (h2 : env.mergeBase b t = some a) (h3 : common_modified env a b t ≠ [])
    (h4 : simulate_merge env b t ≠ []) :
    detect_conflicts env cfg b t =
      { has_conflicts := true,
        conflicting_files := analyze_conflicts env cfg (simulate_merge env b t) b t,
        common_modified_files := common_modified env a b t,
        conflict_count := some (analyze_conflicts env cfg (simulate_merge env b t) b t).length,
        suggestions :=
          generate_suggestions (analyze_conflicts env cfg (simulate_merge env b t) b t) b t } := by
  simp [detect_conflicts, hbt, h1, h2, h3, h4]

/-! ### Shared helper lemmas -/

/-- A branch matching some force-merge pattern gets `merge` from
`get_strategy_advice`, both on the normal path (forced check) and on the
exception path (merge default). -/
theorem advice_forced_merge (env : GitEnv) (cfg : Config) (b t : String)
    (hne : b ≠ t)
    (hany : cfg.forceMergePatterns.any (fun pattern => fnmatchB b pattern) = true) :
    (get_strategy_advice env cfg b t).strategy = "merge" := by
  by_cases har : env.analyzeRaises b t = true
  · simp [get_strategy_advice, hne, har]
  · simp only [Bool.not_eq_true] at har
    simp [get_strategy_advice, hne, har, check_forced_strategy, hany]

/-! ### The claims -/

/-- C8: for every oracle environment, configuration and branch `X`,
`detect_conflicts(X, X)` returns the no-conflict report (no conflicts, empty
conflicting file list) immediately. -/
theorem c8_detect_conflicts_self_no_conflict (env : GitEnv) (cfg : Config) (X : String) :
    detect_conflicts env cfg X X =
      { has_conflicts := false, conflicting_files := [], suggestions := [] } :=
  detect_same env cfg rfl

/-- C6: for every conflicting file with a non-empty diff, the severity of
`_classify_conflict` is exactly the changed-line-count thresholds (at most 5
changed lines: low/`Faible`, at most 20: medium/`Moyenne`, more: high/`Élevée`),
overridden to high whenever the diff touches import/require statements or
function/class signatures — even when the line delta alone is at most 5. -/
theorem c6_severity_thresholds_and_override (fp d : String) (h : d ≠ "") :
    (critical_patterns d = false →
      (classify_conflict fp d).2 =
        (if count_modified_lines d ≤ 5 then "Faible"
         else if count_modified_lines d ≤ 20 then "Moyenne"
         else "Élevée")) ∧
    (critical_patterns d = true → (classify_conflict fp d).2 = "Élevée") := by
  cases h1 : strHas d "import" <;> cases h2 : strHas d "require" <;>
    cases h3 : strHas d "function" <;> cases h4 : strHas d "def " <;>
    cases h5 : strHas d "class" <;>
    simp [classify_conflict, count_modified_lines, critical_patterns,
      h, h1, h2, h3, h4, h5]

/-- Witness for C6: a diff with a changed function signature and a single
changed line classifies as high severity. -/
theorem c6_severity_witness :
    ("\n+def foo(x):" ≠ "" ∧ critical_patterns "\n+def foo(x):" = true ∧
      count_modified_lines "\n+def foo(x):" ≤ 5) ∧
    (classify_conflict "a/b.py" "\n+def foo(x):").2 = "Élevée" :=
  ⟨⟨by decide, by decide, by decide⟩,
   (c6_severity_thresholds_and_override "a/b.py" "\n+def foo(x):" (by decide)).2 (by decide)⟩

/-- C5: if the branch name matches some configured force-merge glob pattern
(and the branch differs from the target, which is checked first in the
source), `_check_forced_strategy` resolves to `merge` no matter what the
force-rebase list holds (the merge-forcing list is scanned first), and
`get_strategy_advice` returns `merge` for every oracle environment — i.e.
regardless of how all scoring factors would otherwise decide. -/
theorem c5_force_merge_pattern_precedence (env : GitEnv) (cfg : Config)
    (b t : String) (hne : b ≠ t) (p : String)
    (hp : p ∈ cfg.forceMergePatterns) (hm : fnmatchB b p = true) :
    check_forced_strategy cfg b = some "merge" ∧
    (get_strategy_advice env cfg b t).strategy = "merge" := by
  have hany : cfg.forceMergePatterns.any (fun pattern => fnmatchB b pattern) = true :=
    List.any_eq_true.mpr ⟨p, hp, hm⟩
  exact ⟨by simp [check_forced_strategy, hany],
         advice_forced_merge env cfg b t hne hany⟩

/-- Witness for C5: `feature/x` under a `feature/*` force-merge pattern (and
a conflicting `feature/*` force-rebase pattern) resolves to `merge`. -/
theorem c5_force_merge_witness :
    check_forced_strategy
      { cfgAuto with forceRebasePatterns := ["feature/*"] } "feature/x" = some "merge" ∧
    (get_strategy_advice baseEnv
      { cfgAuto with forceRebasePatterns := ["feature/*"] } "feature/x" "main").strategy =
      "merge" :=
  c5_force_merge_pattern_precedence baseEnv
    { cfgAuto with forceRebasePatterns := ["feature/*"] } "feature/x" "main"
    (by decide) "feature/*" (by simp [cfgAuto]) (by decide)

/-- C10: with an empty diff text — in particular on every run configured
with `conflict_detection.show_diff = false` — `_classify_conflict` returns
the severity `"Inconnue"`, which lies outside the documented
low/medium/high (`Faible`/`Moyenne`/`Élevée`) scale, every conflict entry
produced by `_analyze_conflicts` carries it, and such conflicts are counted
as neither high, medium nor low by the severity tallies of
`_generate_suggestions` / `detect_conflicts` and of `_analyze_branch`. -/
theorem c10_empty_diff_unknown_severity (env : GitEnv) (cfg : Config)
    (hsd : cfg.showDiff = false) :
    (∀ fp, (classify_conflict fp "").2 = "Inconnue") ∧
    ((["Faible", "Moyenne", "Élevée"].contains "Inconnue") = false) ∧
    (∀ files b t, ∀ e ∈ analyze_conflicts env cfg files b t,
      e.severity = "Inconnue") ∧
    (∀ b t,
      ((detect_conflicts env cfg b t).conflicting_files.filter
        (fun c => c.severity == "Élevée")).length = 0 ∧
      ((detect_conflicts env cfg b t).conflicting_files.filter
        (fun c => c.severity == "Moyenne")).length = 0 ∧
      ((detect_conflicts env cfg b t).conflicting_files.filter
        (fun c => c.severity == "Faible")).length = 0) ∧
    (∀ b t, (analyze_branch env cfg b t).sev_high = 0 ∧
      (analyze_branch env cfg b t).sev_medium = 0 ∧
      (analyze_branch env cfg b t).sev_low = 0) := by
  have hcl : ∀ fp, (classify_conflict fp "").2 = "Inconnue" := by
    intro fp
    simp [classify_conflict]
  have hana : ∀ files b t, ∀ e ∈ analyze_conflicts env cfg files b t,
      e.severity = "Inconnue" := by
    intro files b t e he
    simp only [analyze_conflicts, hsd, Bool.false_and, if_neg, List.mem_map,
      Bool.false_eq_true, if_false] at he
    obtain ⟨fp, _, rfl⟩ := he
    exact hcl fp
  have hfilter : ∀ (l : List ConflictEntry) (s : String),
      ("Inconnue" == s) = false → (∀ e ∈ l, e.severity = "Inconnue") →
      (l.filter (fun c => c.severity == s)).length = 0 := by
    intro l s hs
    induction l with
    | nil => intro _; rfl
    | cons a as ih =>
      intro hall
      have ha := hall a (List.mem_cons_self a as)
      simp only [List.filter_cons, ha, hs, Bool.false_eq_true, if_false]
      exact ih (fun e he => hall e (List.mem_cons_of_mem a he))
  have hdet : ∀ b t, ∀ e ∈ (detect_conflicts env cfg b t).conflicting_files,
      e.severity = "Inconnue" := by
    intro b t e he
    by_cases hbt : b = t
    · rw [detect_same env cfg hbt] at he
      simp at he
    · rcases Bool.eq_false_or_eq_true (env.ancestorRaises b t) with har | har
      · rw [detect_ancestor_raises env cfg hbt har] at he
        simp at he
      · rcases hmb : env.mergeBase b t with _ | a
        · rw [detect_no_ancestor env cfg hbt har hmb] at he
          simp at he
        · by_cases hcf : common_modified env a b t = []
          · rw [detect_no_common env cfg hbt har hmb hcf] at he
            simp at he
          · by_cases hsim : simulate_merge env b t = []
            · rw [detect_sim_clean env cfg hbt har hmb hcf hsim] at he
              simp at he
            · rw [detect_conflict_path env cfg hbt har hmb hcf hsim] at he
              exact hana _ b t e he
  refine ⟨hcl, by decide, hana, ?_, ?_⟩
  · intro b t
    exact ⟨hfilter _ "Élevée" (by decide) (hdet b t),
      hfilter _ "Moyenne" (by decide) (hdet b t),
      hfilter _ "Faible" (by decide) (hdet b t)⟩
  · intro b t
    cases hhc : (detect_conflicts env cfg b t).has_conflicts
    · simp [analyze_branch, hhc]
    · simp [analyze_branch, hhc]
      refine ⟨fun a ha => ?_, fun a ha => ?_, fun a ha => ?_⟩ <;>
        simp [hdet b t a ha]

/-- Witness for C10: under `show_diff = false`, the detailed entry for a
conflicting file has the out-of-scale severity and is tallied nowhere. -/
theorem c10_empty_diff_witness :
    (classify_conflict "f.py" "").2 = "Inconnue" ∧
    (∀ e ∈ analyze_conflicts baseEnv { cfgD with showDiff := false } ["f.py"] "a" "b",
      e.severity = "Inconnue") := by
  obtain ⟨h1, _, h3, _, _⟩ :=
    c10_empty_diff_unknown_severity baseEnv { cfgD with showDiff := false } rfl
  exact ⟨h1 "f.py", h3 ["f.py"] "a" "b"⟩

/-- C9: for every non-integration branch whose fetch succeeds,
`check_sync_status` reports `is_synced` exactly as `behind == 0` — a branch
strictly ahead but not behind is reported synced — and because
`get_branch_divergence` degrades to `(0, 0)` whenever its git commands fail,
a failure to compute divergence is likewise reported as `is_synced = true`
rather than as an error. -/
theorem c9_is_synced_is_behind_zero (env : GitEnv) (cfg : Config) (b : String)
    (hb : b ≠ cfg.mainBranch) (hf : env.fetchFails = false) :
    ∃ st, check_sync_status env cfg b = .ok st ∧
      st.is_synced = (st.behind_commits == 0) ∧
      (st.behind_commits = 0 → st.is_synced = true) ∧
      st.ahead_commits = (get_branch_divergence env b cfg.mainBranch).1 ∧
      st.behind_commits = (get_branch_divergence env b cfg.mainBranch).2 ∧
      (((env.mergeBase b cfg.mainBranch).isNone || env.revListFails b cfg.mainBranch) = true →
        st.is_synced = true ∧ st.ahead_commits = 0 ∧ st.behind_commits = 0) := by
  have hfetch : fetch_updates env = .ok true := by
    simp [fetch_updates, hf, safeGitCommand]
  unfold check_sync_status
  rw [if_neg hb, hfetch]
  refine ⟨_, rfl, rfl, ?_, rfl, rfl, ?_⟩
  · intro h
    have h2 : (get_branch_divergence env b cfg.mainBranch).2 = 0 := h
    simp [h2]
  · intro hdf
    have h00 : get_branch_divergence env b cfg.mainBranch = (0, 0) := by
      unfold get_branch_divergence
      rw [if_pos hdf]
    simp [h00]

/-- Witness for C9: with divergence `(2, 0)` the branch is strictly ahead
and reported synced. -/
theorem c9_is_synced_witness :
    ∃ st, check_sync_status
        { baseEnv with divergence := fun _ _ => (2, 0) } cfgD "feature/x" = .ok st ∧
      st.is_synced = true ∧ st.ahead_commits = 2 := by
  obtain ⟨st, h1, h2, _, h4, h5, _⟩ :=
    c9_is_synced_is_behind_zero { baseEnv with divergence := fun _ _ => (2, 0) }
      cfgD "feature/x" (by decide) rfl
  refine ⟨st, h1, ?_, ?_⟩
  · rw [h2, h5]
    rfl
  · rw [h4]
    rfl

/-- C7 (code bug): for a non-integration branch, a failing
`git fetch` is fatal to `check_sync_status` — the converted GitMove
`GitError` raised by `fetch_updates` is not a `GitCommandError`, so the
status check's `except GitCommandError` handler never fires and the error
propagates instead of being logged; only the integration branch (returned
trivially synced, no fetch attempted) is unaffected. -/
theorem c7_fetch_failure_is_fatal :
    check_sync_status envFetchFail cfgD "feature/x" =
      .error (.gitError "fetch failed") ∧
    isGitErrorKind (PyExc.gitError "fetch failed") = true ∧
    isGitCommandError (PyExc.gitError "fetch failed") = false ∧
    check_sync_status envFetchFail cfgD "main" =
      .ok { is_synced := true, branch := "main", target := "main",
            ahead_commits := 0, behind_commits := 0,
            message := "La branche est la branche principale" } :=
  ⟨rfl, rfl, rfl, rfl⟩

/-- C3 (counterexample): when the merge simulation itself fails, the report
is an ordinary has-conflicts result — `has_conflicts = true`, a non-empty
`conflicting_files` list (holding the sentinel entry) and *no* error note —
the sentinel case is silently coerced, not surfaced as an error condition. -/
theorem c3_sim_failure_coerced_counterexample :
    simulate_merge envSimFail "a" "b" = [sim_sentinel] ∧
    (detect_conflicts envSimFail cfgD "a" "b").has_conflicts = true ∧
    (detect_conflicts envSimFail cfgD "a" "b").error = none ∧
    (detect_conflicts envSimFail cfgD "a" "b").conflicting_files ≠ [] := by
  refine ⟨rfl, rfl, rfl, ?_⟩
  decide

/-- C3 (amended): `has_conflicts` is true iff `conflicting_files` is
non-empty *or* the report carries an error note (no-common-ancestor and
unexpected-error reports have `has_conflicts = true` with an empty list and
an error note); the simulation-failed case is not surfaced as an error
condition — its report carries no error note and a non-empty
`conflicting_files` list holding the sentinel entry. -/
theorem c3_has_conflicts_invariant (env : GitEnv) (cfg : Config) (b t : String) :
    ((detect_conflicts env cfg b t).has_conflicts = true ↔
      ((detect_conflicts env cfg b t).conflicting_files ≠ [] ∨
        (detect_conflicts env cfg b t).error.isSome = true)) ∧
    (∀ a, b ≠ t → env.ancestorRaises b t = false → env.mergeBase b t = some a →
      common_modified env a b t ≠ [] → env.simExc b t = true →
      (detect_conflicts env cfg b t).error = none ∧
      (detect_conflicts env cfg b t).conflicting_files ≠ []) := by
  constructor
  · by_cases hbt : b = t
    · rw [detect_same env cfg hbt]
      simp
    · rcases Bool.eq_false_or_eq_true (env.ancestorRaises b t) with har | har
      · rw [detect_ancestor_raises env cfg hbt har]
        simp
      · rcases hmb : env.mergeBase b t with _ | a
        · rw [detect_no_ancestor env cfg hbt har hmb]
          simp
        · by_cases hcf : common_modified env a b t = []
          · rw [detect_no_common env cfg hbt har hmb hcf]
            simp
          · by_cases hsim : simulate_merge env b t = []
            · rw [detect_sim_clean env cfg hbt har hmb hcf hsim]
              simp
            · rw [detect_conflict_path env cfg hbt har hmb hcf hsim]
              simp [analyze_conflicts, hsim]
  · intro a hbt har hmb hcf hsim
    have hsimv : simulate_merge env b t = [sim_sentinel] := by
      simp [simulate_merge, hsim]
    rw [detect_conflict_path env cfg hbt har hmb hcf (by simp [hsimv])]
    exact ⟨rfl, by simp [analyze_conflicts, hsimv]⟩

/-- Witness for C3 (amended), at the simulation-failure scenario. -/
theorem c3_has_conflicts_invariant_witness :
    (detect_conflicts envSimFail cfgD "a" "c").error = none ∧
    (detect_conflicts envSimFail cfgD "a" "c").conflicting_files ≠ [] :=
  (c3_has_conflicts_invariant envSimFail cfgD "a" "c").2 "anc"
    (by decide) rfl rfl (by decide) rfl

/-- C4 (counterexample): a git failure while listing the modified files
(`get_modified_files` swallows its `GitCommandError` into an empty set)
makes `detect_conflicts` return `has_conflicts = false` even though
detection itself failed — a false negative. -/
theorem c4_swallowed_diff_failure_counterexample :
    envDiffFail.diffFails "anc" "a" = true ∧
    envDiffFail.mergeBase "a" "b" = some "anc" ∧
    detect_conflicts envDiffFail cfgD "a" "b" =
      { has_conflicts := false, conflicting_files := [], suggestions := [] } :=
  ⟨rfl, rfl, rfl⟩

/-- C4 (amended): an unexpected error raised inside `detect_conflicts`
degrades to `has_conflicts = true` with an error note, and a failure of the
merge simulation degrades to `has_conflicts = true` (with a sentinel
conflict entry, without an error note); but a git failure inside the
modified-files listing is swallowed into an empty file set, so false
negatives remain possible on that path. -/
theorem c4_conservative_on_errors (env : GitEnv) (cfg : Config) (b t : String) :
    (b ≠ t → env.ancestorRaises b t = true →
      (detect_conflicts env cfg b t).has_conflicts = true ∧
      (detect_conflicts env cfg b t).error.isSome = true) ∧
    (∀ a, b ≠ t → env.ancestorRaises b t = false → env.mergeBase b t = some a →
      common_modified env a b t ≠ [] → env.simExc b t = true →
      (detect_conflicts env cfg b t).has_conflicts = true) := by
  constructor
  · intro hbt har
    rw [detect_ancestor_raises env cfg hbt har]
    exact ⟨rfl, rfl⟩
  · intro a hbt har hmb hcf hsim
    have hsimv : simulate_merge env b t = [sim_sentinel] := by
      simp [simulate_merge, hsim]
    rw [detect_conflict_path env cfg hbt har hmb hcf (by simp [hsimv])]

/-- Witness for C4 (amended): both conservative paths at concrete inputs. -/
theorem c4_conservative_witness :
    ((detect_conflicts envAncRaises cfgD "a" "b").has_conflicts = true ∧
      (detect_conflicts envAncRaises cfgD "a" "b").error.isSome = true) ∧
    (detect_conflicts envSimFail cfgD "a" "b").has_conflicts = true :=
  ⟨(c4_conservative_on_errors envAncRaises cfgD "a" "b").1 (by decide) rfl,
   (c4_conservative_on_errors envSimFail cfgD "a" "b").2 "anc"
     (by decide) rfl rfl (by decide) rfl⟩

/-- C2 (counterexample): with `sync.default_strategy = "auto"`, a
`feature/*` force-merge pattern and divergence `(2, 1)`,
`_determine_sync_strategy` returns `rebase` (the ahead-count rule fires
before the forced patterns) while `get_strategy_advice` returns `merge`
(forced patterns take precedence): the two procedures disagree on identical
inputs. -/
theorem c2_strategy_disagreement_counterexample :
    determine_sync_strategy baseEnv cfgAuto "feature/x" "main" = "rebase" ∧
    (get_strategy_advice baseEnv cfgAuto "feature/x" "main").strategy = "merge" ∧
    ("rebase" : String) ≠ "merge" :=
  ⟨rfl, rfl, by decide⟩

/-- C2 (amended): the two resolutions are not behaviorally equivalent in
general — `_determine_sync_strategy` returns the configured default outright
when it is `merge`/`rebase` and otherwise prefers `rebase` whenever
`ahead ≤ rebase_threshold` *before* consulting the forced patterns — but
they do agree when the configured default is neither `merge` nor `rebase`,
the branch is ahead by more than the threshold, and a force-merge pattern
matches: then both return `merge`. -/
theorem c2_agreement_on_forced_merge (env : GitEnv) (cfg : Config) (b t : String)
    (hne : b ≠ t)
    (h1 : cfg.defaultStrategy ≠ "merge") (h2 : cfg.defaultStrategy ≠ "rebase")
    (h3 : cfg.rebaseThreshold < (get_branch_divergence env b t).1)
    (p : String) (hp : p ∈ cfg.forceMergePatterns) (hm : fnmatchB b p = true) :
    determine_sync_strategy env cfg b t = "merge" ∧
    (get_strategy_advice env cfg b t).strategy = "merge" := by
  have hany : cfg.forceMergePatterns.any (fun pattern => fnmatchB b pattern) = true :=
    List.any_eq_true.mpr ⟨p, hp, hm⟩
  refine ⟨?_, advice_forced_merge env cfg b t hne hany⟩
  have hle : ¬ ((get_branch_divergence env b t).1 ≤ cfg.rebaseThreshold) :=
    Nat.not_le.mpr h3
  simp [determine_sync_strategy, h1, h2, hle, hany]

/-- Witness for C2 (amended): divergence `(7, 1)` is beyond the threshold 5,
so both procedures return `merge` for the force-merge branch. -/
theorem c2_agreement_witness :
    determine_sync_strategy envAhead7 cfgAuto "feature/x" "main" = "merge" ∧
    (get_strategy_advice envAhead7 cfgAuto "feature/x" "main").strategy = "merge" :=
  c2_agreement_on_forced_merge envAhead7 cfgAuto "feature/x" "main" (by decide)
    (by decide) (by decide) (by decide) "feature/*" (by simp [cfgAuto]) (by decide)

/-- C1: for every operation run inside `safe_operation` that mutates the
repository and raises, the snapshot taken by `save_state` records the
entry branch and HEAD; the original exception is re-raised in every case
(a rollback failure never replaces it); and whenever the rollback
primitives succeed, the repository's current branch and HEAD commit after
the failure equal the values captured by `save_state` at entry. -/
theorem c1_safe_operation_rollback (renv : RecoveryEnv) (mgr : RecMgr)
    (name : String) (op : RepoState → RepoState × Option PyExc)
    (st st2 : RepoState) (b : String) (e : PyExc)
    (hb : st.branch = some b) (hact : mgr.recoveryActions = [])
    (hop : op (save_state renv mgr name st).2.1 = (st2, some e)) :
    (save_state renv mgr name st).2.2.current_branch = some b ∧
    (save_state renv mgr name st).2.2.head_commit = some st.head ∧
    (safe_operation renv mgr name none op st).2.2 = some e ∧
    (renv.stashSaveFails = false → renv.resetFails = false →
      renv.checkoutFails = false → renv.stashApplyFails = false →
      (safe_operation renv mgr name none op st).2.1.branch = some b ∧
      (safe_operation renv mgr name none op st).2.1.head = st.head) := by
  refine ⟨?_, ?_, ?_, ?_⟩
  · cases hd : st.dirty <;> cases hs : renv.stashSaveFails <;>
      simp [save_state, hd, hs, hb]
  · cases hd : st.dirty <;> cases hs : renv.stashSaveFails <;>
      simp [save_state, hd, hs]
  · cases hres : restore_state renv (save_state renv mgr name st).1 name false st2 <;>
      simp [safe_operation, hop, hres]
  · intro hs hr hc ha
    simp only [safe_operation, hop]
    cases hd : st.dirty <;>
      simp [save_state, restore_state, execute_recovery_actions, List.lookup,
        hd, hs, hr, hc, ha, hb, hact]

/-- Witness for C1: a dirty repository on `main` at commit `7`; the
operation switches to `feature` at commit `99` and raises; afterwards the
exception has propagated and branch/HEAD are back to `main`/`7`. -/
theorem c1_safe_operation_witness :
    (safe_operation renvOk mgr0 "op" none opFail st0).2.2 =
      some (.gitError "boom") ∧
    (safe_operation renvOk mgr0 "op" none opFail st0).2.1.branch = some "main" ∧
    (safe_operation renvOk mgr0 "op" none opFail st0).2.1.head = 7 := by
  obtain ⟨_, _, h3, h4⟩ :=
    c1_safe_operation_rollback renvOk mgr0 "op" opFail st0 _ "main"
      (.gitError "boom") rfl rfl rfl
  exact ⟨h3, (h4 rfl rfl rfl rfl).1, (h4 rfl rfl rfl rfl).2⟩

end GitMove

